import Mathlib

/-!
Shallow embedding of `src/server.py` (a Flask backend with three endpoints:
spreadsheet upload, filtered download, template download).

Conventions of the embedding:
* A spreadsheet cell parsed by pandas is a `Cell`: a number, a string, or NaN.
* Pandas column coercions are modelled row-wise: `astype(str).str.strip` on the
  description column and `to_numeric(errors=coerce)` on the value/version
  columns.  Numbers are modelled by `Int` (exact numeric values are irrelevant
  to the claims).
* Dates are `YMDate` records; `pd.to_datetime(s).date()` is modelled by
  `parseDate`, a partial ISO-format parser (success/failure of parsing is what
  the handlers branch on).
* The relational store is a table name indexed map to lists of value tuples
  for inserts, and an `Option` list of rows for the download query: `none`
  models a connection that cannot be established (`pyodbc.connect` raising),
  which the generic `except` block of the handler turns into a 500 response.
* Reading the uploaded workbook is assumed to have succeeded: the handler
  models receive the already parsed row list (a parse exception would be a
  500, outside the claims about validation).
-/

namespace Server

/-- A calendar date as produced by `pandas.Timestamp.date()`. -/
structure YMDate where
  year : Nat
  month : Nat
  day : Nat
deriving DecidableEq, Repr

/-- A datetime value as stored in the `DateOfRpt` column of the download
table; `CAST(DateOfRpt AS DATE)` drops the time of day. -/
structure SqlDateTime where
  date : YMDate
  secondsOfDay : Nat
deriving DecidableEq, Repr

/-- Meaning of `CAST(x AS DATE)` in the download query. -/
def castDate (dt : SqlDateTime) : YMDate := dt.date

/-- A raw spreadsheet cell as read by `pd.read_excel`. -/
inductive Cell where
  | nan
  | num (v : Int)
  | str (v : String)
deriving DecidableEq, Repr

/-- Strip leading and trailing whitespace from a character list. -/
def stripChars (l : List Char) : List Char :=
  ((l.dropWhile Char.isWhitespace).reverse.dropWhile Char.isWhitespace).reverse

/-- Model of `str.strip()` of Python / pandas `.str.strip()`. -/
def pyStrip (s : String) : String :=
  ⟨stripChars s.data⟩

/-- Parse a nonempty run of decimal digits. -/
def parseNatChars (cs : List Char) : Option Nat :=
  if cs.isEmpty then none
  else
    cs.foldl
      (fun acc c =>
        match acc with
        | none => none
        | some n => if c.isDigit then some (n * 10 + (c.toNat - 48)) else none)
      (some 0)

/-- Parse an optionally signed integer literal; models the numeric parse of
`pd.to_numeric` on strings (`none` = not a number). -/
def parseIntString (s : String) : Option Int :=
  match s.data with
  | '-' :: rest => (parseNatChars rest).map (fun n => -(n : Int))
  | cs => (parseNatChars cs).map (fun n => (n : Int))

/-- Model of `df[c].astype(str).str.strip()`: NaN becomes the string "nan", numbers
are rendered, strings are trimmed.  The result is never missing. -/
def astypeStrStrip : Cell → String
  | .nan => "nan"
  | .num v => toString v
  | .str v => pyStrip v

/-- Model of `pd.to_numeric(col, errors=coerce)`: NaN stays missing, numbers pass
through, strings parse or become missing. -/
def toNumericCoerce : Cell → Option Int
  | .nan => none
  | .num v => some v
  | .str v => parseIntString v

/-- Split a character list at each dash. -/
def splitDashChars : List Char → List Char → List (List Char)
  | [], acc => [acc.reverse]
  | c :: rest, acc =>
    if c = '-' then acc.reverse :: splitDashChars rest []
    else splitDashChars rest (c :: acc)

/-- Model of `pd.to_datetime(s).date()` for the date strings of requests, modelled as
an ISO `YYYY-MM-DD` parser; `none` models the exception branch. -/
def parseDate (s : String) : Option YMDate :=
  match splitDashChars s.data [] with
  | [ys, ms, ds] =>
    match parseNatChars ys, parseNatChars ms, parseNatChars ds with
    | some y, some m, some d =>
      if 1 ≤ m ∧ m ≤ 12 ∧ 1 ≤ d ∧ d ≤ 31 then some ⟨y, m, d⟩ else none
    | _, _, _ => none
  | _ => none

/-- Parse every date string of a request; any failure fails the whole list
(the list comprehension of line 216 raising). -/
def parseDates : List String → Option (List YMDate)
  | [] => some []
  | d :: ds =>
    match parseDate d, parseDates ds with
    | some x, some xs => some (x :: xs)
    | _, _ => none

/-- One raw row of the `JSON` sheet, columns B/C/D (`usecols=[1,2,3]`). -/
structure RawRow where
  description : Cell
  value : Cell
  version : Cell
deriving DecidableEq, Repr

/-- A row after the column coercions of `upload_file` (lines 153-155):
description is always a string, value/version may have become missing. -/
structure CoercedRow where
  description : String
  value : Option Int
  version : Option Int
deriving DecidableEq, Repr

/-- The per-row effect of lines 153-155 of `upload_file`. -/
def coerceRow (r : RawRow) : CoercedRow :=
  { description := astypeStrStrip r.description
    value := toNumericCoerce r.value
    version := toNumericCoerce r.version }

/-- The predicate of `dropna(subset=[Description, Value, Version])`: a row is
kept when none of the three fields is missing (description, being a string
after `astype(str)`, is never missing). -/
def rowKept (c : CoercedRow) : Bool :=
  c.value.isSome && c.version.isSome

/-- A fully normalized upload record: the five canonical fields attached in
lines 150-169 of `upload_file`, in the insert column order. -/
structure FullRow where
  description : String
  value : Int
  version : Int
  shelter : String
  dateOfRpt : YMDate
deriving DecidableEq, Repr

/-- Attach shelter and report date to a kept coerced row (lines 165-169);
`none` when the row would have been dropped. -/
def finalizeRow (c : CoercedRow) (shelter : String) (dt : YMDate) : Option FullRow :=
  match c.value, c.version with
  | some v, some ver => some ⟨c.description, v, ver, shelter, dt⟩
  | _, _ => none

/-- Python truthiness of an optional form field: `not shelter` is true when
the field is absent or the empty string. -/
def fieldTruthy : Option String → Bool
  | none => false
  | some s => s ≠ ""

/-- The multipart upload request to `/api/upload-excel`: presence of the
`excelFile` part, the two form fields, and the parsed rows of the workbook. -/
structure UploadRequest where
  hasFile : Bool
  shelter : Option String
  dateOfRpt : Option String
  rows : List RawRow
deriving Repr

/-- Outcome of the upload handler up to the insert call: either an error
response with an HTTP status, or the decision to insert `rows` and answer
with `skipped` and `preview` on success. -/
inductive UploadOutcome where
  | reject (status : Nat) (msg : String)
  | insert (rows : List FullRow) (skipped : Nat) (preview : List FullRow)
deriving DecidableEq, Repr

/-- The `upload_file` handler of `src/server.py` lines 124-183, up to the
call of `insert_data_into_sql` (whose own effect is modelled separately). -/
def uploadFile (req : UploadRequest) : UploadOutcome :=
  if ¬ req.hasFile then
    .reject 400 "No file uploaded. field name must be excelFile"
  else if ¬ (fieldTruthy req.shelter && fieldTruthy req.dateOfRpt) then
    .reject 400 "Shelter and Date of Report are required."
  else if req.rows.isEmpty then
    .reject 400 "No data found in Excel sheet."
  else
    let coerced := req.rows.map coerceRow
    let keptRows := coerced.filter rowKept
    let droppedRows := coerced.length - keptRows.length
    if keptRows.isEmpty then
      .reject 400 "All rows are invalid or missing required data."
    else
      match parseDate (req.dateOfRpt.getD "") with
      | none => .reject 400 "Invalid date format for dateOfRpt. Use YYYY-MM-DD."
      | some dt =>
        let full := keptRows.filterMap
          (fun c => finalizeRow c (req.shelter.getD "") dt)
        .insert full droppedRows (full.take 10)

/-! ### Persistence gateway: `insert_data_into_sql` (lines 86-120) -/

/-- A value as bound to a `?` placeholder of the insert statement. -/
inductive SqlVal where
  | s (v : String)
  | i (v : Int)
  | d (v : YMDate)
  | dt (v : SqlDateTime)
deriving DecidableEq, Repr

/-- Line 105: the fixed five-column tuple
`(Description, Value, Version, Shelter, DateOfRpt)` sent for one row. -/
def rowTuple (r : FullRow) : List SqlVal :=
  [.s r.description, .i r.value, .i r.version, .s r.shelter, .d r.dateOfRpt]

/-- The relational store for inserts: table name to list of stored tuples. -/
def Db : Type := String → List (List SqlVal)

/-- Model of `cursor.executemany` on a connection with `autocommit=False`: rows are
staged on the connection, not in the database.  `failIdx = some i` with
`i < rows.length` models a driver/constraint error raised while processing
row `i`; the rows staged before it are left pending and the exception
propagates. -/
def executemany (rows : List (List SqlVal)) (failIdx : Option Nat) :
    Except String (List (List SqlVal)) :=
  match failIdx with
  | some i => if i < rows.length then .error "constraint violation" else .ok rows
  | none => .ok rows

/-- Model of `conn.commit()`: apply the staged tuples to the named table. -/
def commitInto (db : Db) (table : String) (pending : List (List SqlVal)) : Db :=
  fun t => if t = table then db t ++ pending else db t

/-- Model of `insert_data_into_sql(df, table_name)` (lines 86-120): stage all tuples
with `executemany`, commit only after the whole batch succeeded, and return
the row count; on an exception the connection is closed without commit (the
`finally` block), so the staged rows are discarded — the database is
returned unchanged and the error surfaces to the caller. -/
def insert_data_into_sql (db : Db) (rows : List FullRow) (table : String)
    (failIdx : Option Nat) : Db × Except String Nat :=
  match executemany (rows.map rowTuple) failIdx with
  | .error e => (db, .error e)
  | .ok pending => (commitInto db table pending, .ok pending.length)

/-! ### Download endpoint: `download_data` (lines 190-263) -/

/-- One row of the download table as returned by the query of lines 224-230
(`SELECT Description, Value, Shelter, DateOfRpt`). -/
structure DbRow where
  description : String
  value : Int
  shelter : String
  dateOfRpt : SqlDateTime
deriving DecidableEq, Repr

/-- The parameterized query built in lines 220-235: the fixed select list,
the target table, and the two `IN`-list parameter vectors. -/
structure SqlQuery where
  columns : List String
  table : String
  shelterParams : List String
  dateParams : List YMDate
deriving DecidableEq, Repr

/-- The default download table (env `DOWNLOAD_TABLE`, line 48). -/
def DOWNLOAD_TABLE : String := "HisupFinal"

/-- The select list of the query string at line 225. -/
def downloadColumns : List String := ["Description", "Value", "Shelter", "DateOfRpt"]

/-- The insert column list of line 100. -/
def insertColumns : List String :=
  ["Description", "Value", "Version", "Shelter", "DateOfRpt"]

/-- Lines 220-235: build the download query with one `?` per shelter and per
date. -/
def buildDownloadQuery (table : String) (shelters : List String)
    (dates : List YMDate) : SqlQuery :=
  { columns := downloadColumns
    table := table
    shelterParams := shelters
    dateParams := dates }

/-- The `WHERE` clause of lines 227-228:
`Shelter IN (...) AND CAST(DateOfRpt AS DATE) IN (...)`. -/
def rowMatches (q : SqlQuery) (r : DbRow) : Bool :=
  q.shelterParams.contains r.shelter && q.dateParams.contains (castDate r.dateOfRpt)

/-- Lexicographic comparison on dates, for `ORDER BY ... DateOfRpt`. -/
def dateLE (a b : YMDate) : Bool :=
  if a.year = b.year then
    if a.month = b.month then a.day ≤ b.day else a.month ≤ b.month
  else a.year ≤ b.year

/-- Order `ORDER BY Shelter, DateOfRpt` (line 229) as a boolean order on rows. -/
def rowLE (a b : DbRow) : Bool :=
  if a.shelter = b.shelter then dateLE a.dateOfRpt.date b.dateOfRpt.date
  else a.shelter < b.shelter

/-- Insertion into a list sorted by `rowLE`. -/
def insertSorted (r : DbRow) : List DbRow → List DbRow
  | [] => [r]
  | x :: xs => if rowLE r x then r :: x :: xs else x :: insertSorted r xs

/-- Insertion sort by `rowLE`, modelling the `ORDER BY` of the query. -/
def sortRows (l : List DbRow) : List DbRow :=
  l.foldr insertSorted []

/-- Execute the download query against the store.  `store = none` models a
connection that cannot be established (`pyodbc.connect` raising inside
`get_db_connection`, which never checks configuration and always attempts
the connection).  An empty `IN ()` list is a SQL syntax error raised by the
server. -/
def execQuery (store : Option (List DbRow)) (q : SqlQuery) :
    Except String (List DbRow) :=
  match store with
  | none => .error "unable to connect to data source"
  | some table =>
    if q.shelterParams.isEmpty || q.dateParams.isEmpty then
      .error "incorrect syntax near the empty IN list"
    else
      .ok (sortRows (table.filter (rowMatches q)))

/-- The JSON body of a `/download` request. -/
structure DownloadRequest where
  shelters : List String
  dates : List String
deriving DecidableEq, Repr

/-- A generated single-sheet workbook (`pd.ExcelWriter` + `to_excel`,
lines 249-252): sheet name, header row, data rows in order. -/
structure Sheet where
  name : String
  header : List String
  rows : List (List SqlVal)
deriving DecidableEq, Repr

/-- The cells of one result row, in the column order of the query. -/
def dbRowCells (r : DbRow) : List SqlVal :=
  [.s r.description, .i r.value, .s r.shelter, .dt r.dateOfRpt]

/-- Model of `df.to_excel(writer, index=False, sheet_name=HISup)`: serialize the
result set preserving column order and row order. -/
def toExcel (header : List String) (rows : List DbRow) : Sheet :=
  { name := "HISup", header := header, rows := rows.map dbRowCells }

/-- Outcome of the download handler: an error response with an HTTP status,
or a workbook attachment with its download name (line 258). -/
inductive DownloadOutcome where
  | err (status : Nat) (msg : String)
  | file (sheet : Sheet) (downloadName : String)
deriving DecidableEq, Repr

/-- Model of line 212: `[str(s).strip() for s in shelters if str(s).strip()]`. -/
def normalizeShelters (l : List String) : List String :=
  (l.map pyStrip).filter (fun s => s ≠ "")

/-- The `download_data` handler (lines 190-263), parameterized by the
configured download table and the store state. -/
def downloadDataT (table : String) (store : Option (List DbRow))
    (req : DownloadRequest) : DownloadOutcome :=
  if req.shelters.isEmpty || req.dates.isEmpty then
    .err 400 "Shelters and dates are required."
  else
    match parseDates req.dates with
    | none => .err 400 "Invalid dates provided. Use YYYY-MM-DD."
    | some dateObjects =>
      let q := buildDownloadQuery table (normalizeShelters req.shelters) dateObjects
      match execQuery store q with
      | .error e => .err 500 ("Failed to generate download: " ++ e)
      | .ok rows =>
        if rows.isEmpty then
          .err 404 "No data found for the selected filters."
        else
          .file (toExcel downloadColumns rows) "HISup_data.xlsx"

/-- Handler `download_data` with the configured default table. -/
def downloadData (store : Option (List DbRow)) (req : DownloadRequest) :
    DownloadOutcome :=
  downloadDataT DOWNLOAD_TABLE store req

/-! ### Template endpoint: `download_template` (lines 285-295) -/

/-- Outcome of `/download-template`: the file bytes as an attachment, or an
error response. -/
inductive TemplateOutcome where
  | err (status : Nat) (msg : String)
  | file (bytes : List UInt8)
deriving DecidableEq, Repr

/-- The `download_template` handler: `fs` is the content of
`HFTallySheet_ENv3.0.xlsx` on disk (`none` when `os.path.exists` fails). -/
def download_template (fs : Option (List UInt8)) : TemplateOutcome :=
  match fs with
  | none => .err 404 "File not found"
  | some bytes => .file bytes

/-! ### Helper lemmas -/

/-- Splitting a list by a boolean predicate preserves total length. -/
theorem length_filter_not_add {α : Type} (p : α → Bool) (l : List α) :
    (l.filter (fun a => ! p a)).length + (l.filter p).length = l.length := by
  induction l with
  | nil => rfl
  | cons a t ih => cases h : p a <;> simp [List.filter_cons, h] <;> omega

/-- Project a finalized upload record back onto its coerced fields. -/
def toCoercedOf (fr : FullRow) : CoercedRow :=
  ⟨fr.description, some fr.value, some fr.version⟩

/-- On a list of kept rows, `finalizeRow` never drops anything and only adds
the shelter and date fields. -/
theorem filterMap_finalize_map_back (sh : String) (dt : YMDate) :
    ∀ l : List CoercedRow, (∀ c ∈ l, rowKept c = true) →
      (l.filterMap (fun c => finalizeRow c sh dt)).map toCoercedOf = l := by
  intro l
  induction l with
  | nil => intro _; rfl
  | cons c cs ih =>
    intro h
    have hc : rowKept c = true := h c (List.mem_cons_self _ _)
    obtain ⟨d, ov, over⟩ := c
    unfold rowKept at hc
    simp only [Bool.and_eq_true, Option.isSome_iff_exists] at hc
    obtain ⟨⟨v, hv⟩, ⟨ver, hver⟩⟩ := hc
    subst hv hver
    simp only [List.filterMap_cons, finalizeRow, List.map_cons, toCoercedOf]
    exact congrArg _ (ih (fun c hmem => h c (List.mem_cons_of_mem _ hmem)))

/-- Membership in an `insertSorted` result. -/
theorem mem_insertSorted (r a : DbRow) (l : List DbRow) :
    a ∈ insertSorted r l ↔ a = r ∨ a ∈ l := by
  induction l with
  | nil => simp [insertSorted]
  | cons x xs ih =>
    unfold insertSorted
    by_cases h : rowLE r x = true <;> simp [h, ih] <;> tauto

/-- Sorting the query result reorders it without changing membership. -/
theorem mem_sortRows (a : DbRow) (l : List DbRow) : a ∈ sortRows l ↔ a ∈ l := by
  induction l with
  | nil => simp [sortRows]
  | cons x xs ih =>
    show a ∈ insertSorted x (sortRows xs) ↔ _
    rw [mem_insertSorted]
    simp [ih]

/-- The upload handler answered with a 400 validation error. -/
def UploadOutcome.is400 : UploadOutcome → Bool
  | .reject s _ => s == 400
  | .insert _ _ _ => false

/-! ### Claim theorems -/

/-- C4: every download request whose shelters list or dates list is empty is
rejected with a 400 error response. -/
theorem download_empty_axis_rejected_400 (store : Option (List DbRow))
    (req : DownloadRequest) (h : req.shelters = [] ∨ req.dates = []) :
    downloadData store req = .err 400 "Shelters and dates are required." := by
  unfold downloadData downloadDataT
  rcases h with h | h <;> simp [h]

/-- Witness for C4 at a concrete request with an empty shelters list. -/
theorem download_empty_axis_rejected_400_witness :
    downloadData (some []) ⟨[], ["2025-01-10"]⟩
      = .err 400 "Shelters and dates are required." :=
  download_empty_axis_rejected_400 (some []) ⟨[], ["2025-01-10"]⟩ (Or.inl rfl)

/-- C7: a download request that passes validation but whose filter matches no
rows gets a 404 error response, and no spreadsheet outcome is produced. -/
theorem download_no_match_404 (store : Option (List DbRow))
    (req : DownloadRequest) (ds : List YMDate)
    (hs : ¬ req.shelters.isEmpty = true) (hd : ¬ req.dates.isEmpty = true)
    (hp : parseDates req.dates = some ds)
    (hq : execQuery store
        (buildDownloadQuery DOWNLOAD_TABLE (normalizeShelters req.shelters) ds)
      = .ok []) :
    downloadData store req = .err 404 "No data found for the selected filters." := by
  unfold downloadData downloadDataT
  rw [if_neg (by simp [hs, hd])]
  rw [hp]
  dsimp only
  rw [hq]
  rfl

/-- Witness for C7: shelters `[North]`, dates `[2025-01-10]`, empty table. -/
theorem download_no_match_404_witness :
    downloadData (some []) ⟨["North"], ["2025-01-10"]⟩
      = .err 404 "No data found for the selected filters." :=
  download_no_match_404 (some []) ⟨["North"], ["2025-01-10"]⟩ [⟨2025, 1, 10⟩]
    (by decide) (by decide) rfl rfl

/-- C9: with the template file unchanged on disk, repeated invocations of the
template endpoint return byte-identical content, the returned bytes are the
bytes of the file, and the answer is a 404 exactly when the file is absent. -/
theorem download_template_idempotent (fs : Option (List UInt8)) :
    download_template fs = download_template fs
    ∧ (∀ b : List UInt8, download_template (some b) = .file b)
    ∧ (download_template fs = .err 404 "File not found" ↔ fs = none) := by
  refine ⟨rfl, fun b => rfl, ?_⟩
  cases fs <;> simp [download_template]

/-- A row of the demonstration store used by concrete counterexamples. -/
def demoStoreRow : DbRow :=
  { description := "Beds", value := 12, shelter := "North"
    dateOfRpt := ⟨⟨2025, 1, 10⟩, 0⟩ }

/-- C10: a download request whose shelters list contains only a whitespace
string passes the presence check, the normalization empties the shelter
IN-list, and the request ends in a 500 (the SQL error for an empty `IN ()`
caught by the generic handler), not a 400 validation error. -/
theorem download_whitespace_shelters_500 :
    normalizeShelters [" "] = []
    ∧ downloadData (some [demoStoreRow]) ⟨[" "], ["2025-01-10"]⟩
        = .err 500 "Failed to generate download: incorrect syntax near the empty IN list" := by
  exact ⟨rfl, rfl⟩

/-- C3 counterexample: with the store unavailable and a valid request, the
download handler answers with a 500 connection error — it does not fall back
to local files (a fallback would produce a workbook or a 404, and the
handler consults no data source other than the store). -/
theorem download_unconfigured_returns_500_concrete :
    downloadData none ⟨["North"], ["2025-01-10"]⟩
      = .err 500 "Failed to generate download: unable to connect to data source" := by
  rfl

/-- C3 amended: whenever the store connection cannot be established, any
download request that passes validation gets a 500 error response; this
revision has no local fallback path. -/
theorem download_unconfigured_returns_500 (req : DownloadRequest)
    (ds : List YMDate)
    (hs : ¬ req.shelters.isEmpty = true) (hd : ¬ req.dates.isEmpty = true)
    (hp : parseDates req.dates = some ds) :
    downloadData none req
      = .err 500 "Failed to generate download: unable to connect to data source" := by
  unfold downloadData downloadDataT
  rw [if_neg (by simp [hs, hd])]
  rw [hp]
  rfl

/-- Witness for the amended C3 at a concrete valid request. -/
theorem download_unconfigured_returns_500_witness :
    downloadData none ⟨["South"], ["2024-12-31"]⟩
      = .err 500 "Failed to generate download: unable to connect to data source" :=
  download_unconfigured_returns_500 ⟨["South"], ["2024-12-31"]⟩ [⟨2024, 12, 31⟩]
    (by decide) (by decide) rfl

/-- C2 counterexample: the select list of the download query is the fixed
four-column list, identical for any table, and it omits the `Version`
column that the insert statement of this very system writes — so it does not
select all columns of the download table. -/
theorem download_select_list_omits_version :
    (buildDownloadQuery "HisupFinal" ["North"] [⟨2025, 1, 10⟩]).columns
      = ["Description", "Value", "Shelter", "DateOfRpt"]
    ∧ (buildDownloadQuery "SomeOtherTable" ["North"] [⟨2025, 1, 10⟩]).columns
      = ["Description", "Value", "Shelter", "DateOfRpt"]
    ∧ "Version" ∈ insertColumns
    ∧ "Version" ∉ (buildDownloadQuery "HisupFinal" ["North"] [⟨2025, 1, 10⟩]).columns := by
  refine ⟨rfl, rfl, ?_, ?_⟩ <;> decide

/-- C2 amended: the download query selects the fixed four columns
`Description, Value, Shelter, DateOfRpt`, and its result set consists of
exactly the table rows whose shelter is in the given shelter set AND whose
date, cast to a date-only value, is in the given date set. -/
theorem download_query_restricts_by_shelter_and_date (table : String)
    (tbl : List DbRow) (shelters : List String) (dates : List YMDate)
    (rows : List DbRow)
    (hq : execQuery (some tbl) (buildDownloadQuery table shelters dates)
      = .ok rows) :
    (buildDownloadQuery table shelters dates).columns
      = ["Description", "Value", "Shelter", "DateOfRpt"]
    ∧ ∀ r : DbRow, r ∈ rows ↔
        (r ∈ tbl ∧ shelters.contains r.shelter = true
          ∧ dates.contains (castDate r.dateOfRpt) = true) := by
  refine ⟨rfl, fun r => ?_⟩
  unfold execQuery at hq
  dsimp only [buildDownloadQuery] at hq
  by_cases hemp : (shelters.isEmpty || dates.isEmpty) = true
  · rw [if_pos hemp] at hq
    exact absurd hq (by simp)
  · rw [if_neg hemp] at hq
    injection hq with h
    subst h
    rw [mem_sortRows, List.mem_filter]
    simp [rowMatches, buildDownloadQuery, and_assoc]

/-- Witness for the amended C2 at a one-row table that matches the filter. -/
theorem download_query_restricts_witness :
    (buildDownloadQuery "HisupFinal" ["North"] [⟨2025, 1, 10⟩]).columns
      = ["Description", "Value", "Shelter", "DateOfRpt"]
    ∧ ∀ r : DbRow, r ∈ [demoStoreRow] ↔
        (r ∈ [demoStoreRow] ∧ (["North"] : List String).contains r.shelter = true
          ∧ ([⟨2025, 1, 10⟩] : List YMDate).contains (castDate r.dateOfRpt) = true) :=
  download_query_restricts_by_shelter_and_date "HisupFinal" [demoStoreRow]
    ["North"] [⟨2025, 1, 10⟩] [demoStoreRow] rfl

/-- C8 counterexample: the attachment filename is the constant
`HISup_data.xlsx`, identical for two distinct configured download tables
and independent of any clock — it embeds neither the table name nor a
timestamp. -/
theorem download_filename_ignores_table_and_time :
    downloadDataT "HisupFinal" (some [demoStoreRow]) ⟨["North"], ["2025-01-10"]⟩
      = .file (toExcel downloadColumns [demoStoreRow]) "HISup_data.xlsx"
    ∧ downloadDataT "SomeOtherTable" (some [demoStoreRow]) ⟨["North"], ["2025-01-10"]⟩
      = .file (toExcel downloadColumns [demoStoreRow]) "HISup_data.xlsx" := by
  exact ⟨rfl, rfl⟩

/-- C8 amended: when the download succeeds, the handler serializes the
result set of the query into a single-sheet workbook (sheet name `HISup`),
preserving the column order of the query and the result row order, and returns
it under the fixed filename `HISup_data.xlsx`. -/
theorem download_export_fixed_name_preserves_rows (table : String)
    (store : Option (List DbRow)) (req : DownloadRequest) (ds : List YMDate)
    (rows : List DbRow)
    (hs : ¬ req.shelters.isEmpty = true) (hd : ¬ req.dates.isEmpty = true)
    (hp : parseDates req.dates = some ds)
    (hq : execQuery store
        (buildDownloadQuery table (normalizeShelters req.shelters) ds)
      = .ok rows)
    (hne : ¬ rows.isEmpty = true) :
    downloadDataT table store req
      = .file { name := "HISup", header := downloadColumns,
                rows := rows.map dbRowCells } "HISup_data.xlsx" := by
  unfold downloadDataT
  rw [if_neg (by simp [hs, hd])]
  rw [hp]
  dsimp only
  rw [hq]
  dsimp only
  rw [if_neg hne]
  rfl

/-- Witness for the amended C8 at a one-row store. -/
theorem download_export_fixed_name_witness :
    downloadDataT "HisupFinal" (some [demoStoreRow]) ⟨["North"], ["2025-01-10"]⟩
      = .file { name := "HISup", header := downloadColumns,
                rows := [demoStoreRow].map dbRowCells } "HISup_data.xlsx" :=
  download_export_fixed_name_preserves_rows "HisupFinal" (some [demoStoreRow])
    ⟨["North"], ["2025-01-10"]⟩ [⟨2025, 1, 10⟩] [demoStoreRow]
    (by decide) (by decide) rfl rfl (by decide)

/-- C5: the batch insert either commits the whole batch — every tuple, in
the fixed five-column order, appended to the named table — and reports the
full row count, or fails with the error surfaced and the database left
exactly as it was; and committing appends precisely the batch tuples. -/
theorem insert_batch_transactional (db : Db) (rows : List FullRow)
    (table : String) (failIdx : Option Nat) :
    (insert_data_into_sql db rows table failIdx
        = (commitInto db table (rows.map rowTuple), .ok rows.length)
      ∨ insert_data_into_sql db rows table failIdx
        = (db, .error "constraint violation"))
    ∧ commitInto db table (rows.map rowTuple) table
        = db table ++ rows.map rowTuple := by
  constructor
  · unfold insert_data_into_sql executemany
    cases failIdx with
    | none => left; simp
    | some i =>
      dsimp only
      by_cases h : i < (rows.map rowTuple).length
      · right; rw [if_pos h]
      · left; rw [if_neg h]; simp
  · simp [commitInto]

/-- C1: when the upload handler decides to insert, the skipped count equals
the number of uploaded rows with a field missing after coercion, the
inserted set is exactly the kept rows field for field (so dropped rows are
excluded from it), its size plus the skipped count is the uploaded row
count, and the preview is a prefix of the inserted set (so dropped rows are
excluded from the preview as well). -/
theorem upload_drops_incomplete_rows (req : UploadRequest)
    (rows : List FullRow) (skipped : Nat) (preview : List FullRow)
    (h : uploadFile req = .insert rows skipped preview) :
    skipped = (req.rows.filter (fun r => ! rowKept (coerceRow r))).length
    ∧ rows.map toCoercedOf = (req.rows.map coerceRow).filter rowKept
    ∧ rows.length + skipped = req.rows.length
    ∧ preview = rows.take 10 := by
  unfold uploadFile at h
  split at h
  · simp at h
  split at h
  · simp at h
  split at h
  · simp at h
  dsimp only at h
  split at h
  · simp at h
  split at h
  · simp at h
  rename_i dt hdt
  injection h with h1 h2 h3
  subst h1 h2 h3
  have hmap : (((req.rows.map coerceRow).filter rowKept).filterMap
      (fun c => finalizeRow c (req.shelter.getD "") dt)).map toCoercedOf
      = (req.rows.map coerceRow).filter rowKept :=
    filterMap_finalize_map_back _ _ _ (fun c hc => (List.mem_filter.mp hc).2)
  refine ⟨?_, hmap, ?_, rfl⟩
  · have hadd := length_filter_not_add (fun r => rowKept (coerceRow r)) req.rows
    have hklen : ((req.rows.map coerceRow).filter rowKept).length
        = (req.rows.filter (fun r => rowKept (coerceRow r))).length := by
      rw [List.filter_map, List.length_map]
      rfl
    have e1 : (req.rows.map coerceRow).length = req.rows.length :=
      List.length_map _ _
    omega
  · have hlen : (((req.rows.map coerceRow).filter rowKept).filterMap
        (fun c => finalizeRow c (req.shelter.getD "") dt)).length
        = ((req.rows.map coerceRow).filter rowKept).length := by
      rw [← List.length_map _ toCoercedOf, hmap]
    have hadd := length_filter_not_add (fun r => rowKept (coerceRow r)) req.rows
    have hklen : ((req.rows.map coerceRow).filter rowKept).length
        = (req.rows.filter (fun r => rowKept (coerceRow r))).length := by
      rw [List.filter_map, List.length_map]
      rfl
    have e1 : (req.rows.map coerceRow).length = req.rows.length :=
      List.length_map _ _
    omega

/-- Witness for C1: two uploaded rows, one with a non-numeric value; the
handler inserts one row, skips one, and previews only the inserted row. -/
theorem upload_drops_incomplete_rows_witness :
    1 = ((UploadRequest.mk true (some "North") (some "2025-01-10")
          [⟨.str "Beds", .num 12, .num 1⟩, ⟨.str "Cots", .str "NA", .num 1⟩]).rows.filter
            (fun r => ! rowKept (coerceRow r))).length
    ∧ ([⟨"Beds", 12, 1, "North", ⟨2025, 1, 10⟩⟩] : List FullRow).map toCoercedOf
        = ((UploadRequest.mk true (some "North") (some "2025-01-10")
            [⟨.str "Beds", .num 12, .num 1⟩, ⟨.str "Cots", .str "NA", .num 1⟩]).rows.map
              coerceRow).filter rowKept
    ∧ ([⟨"Beds", 12, 1, "North", ⟨2025, 1, 10⟩⟩] : List FullRow).length + 1
        = (UploadRequest.mk true (some "North") (some "2025-01-10")
            [⟨.str "Beds", .num 12, .num 1⟩, ⟨.str "Cots", .str "NA", .num 1⟩]).rows.length
    ∧ ([⟨"Beds", 12, 1, "North", ⟨2025, 1, 10⟩⟩] : List FullRow)
        = ([⟨"Beds", 12, 1, "North", ⟨2025, 1, 10⟩⟩] : List FullRow).take 10 :=
  upload_drops_incomplete_rows
    (UploadRequest.mk true (some "North") (some "2025-01-10")
      [⟨.str "Beds", .num 12, .num 1⟩, ⟨.str "Cots", .str "NA", .num 1⟩])
    [⟨"Beds", 12, 1, "North", ⟨2025, 1, 10⟩⟩] 1
    [⟨"Beds", 12, 1, "North", ⟨2025, 1, 10⟩⟩] (by rfl)

/-- C6: for an upload request carrying a file part, the handler answers with
a 400 validation error exactly when the shelter field is absent or empty,
the date field is absent or empty, the normalized row-set is empty, or the
date string does not parse; and a 400 answer excludes any insert outcome. -/
theorem upload_validation_400_iff (req : UploadRequest)
    (hf : req.hasFile = true) :
    ((uploadFile req).is400 = true
      ↔ (fieldTruthy req.shelter = false ∨ fieldTruthy req.dateOfRpt = false
         ∨ (req.rows.map coerceRow).filter rowKept = []
         ∨ parseDate (req.dateOfRpt.getD "") = none))
    ∧ ∀ rows skipped preview,
        (uploadFile req).is400 = true →
          uploadFile req ≠ .insert rows skipped preview := by
  constructor
  · unfold uploadFile
    rw [if_neg (by simp [hf])]
    by_cases hft : (fieldTruthy req.shelter && fieldTruthy req.dateOfRpt) = true
    · rw [if_neg (by simp [hft])]
      by_cases hre : req.rows.isEmpty = true
      · rw [if_pos hre]
        have : req.rows = [] := List.isEmpty_iff.mp hre
        simp [UploadOutcome.is400, this]
      · rw [if_neg hre]
        dsimp only
        by_cases hk : ((req.rows.map coerceRow).filter rowKept).isEmpty = true
        · rw [if_pos hk]
          simp [UploadOutcome.is400, List.isEmpty_iff.mp hk]
        · rw [if_neg hk]
          cases hp : parseDate (req.dateOfRpt.getD "") with
          | none =>
            simp [UploadOutcome.is400, hp]
          | some dt =>
            obtain ⟨hs1, hs2⟩ := Bool.and_eq_true_iff.mp hft
            simp [UploadOutcome.is400, hp, hs1, hs2,
              List.isEmpty_iff.not.mp hk]
    · rw [if_pos (by simp [hft])]
      rcases Bool.and_eq_false_iff.mp (Bool.not_eq_true _ ▸ hft) with hs | hs <;>
        simp [UploadOutcome.is400, hs]
  · intro rows skipped preview h400 heq
    rw [heq] at h400
    simp [UploadOutcome.is400] at h400

/-- Witness for C6: a request with a file but an empty sheet is answered
with a 400, matching the empty normalized row-set disjunct. -/
theorem upload_validation_400_iff_witness :
    (uploadFile (UploadRequest.mk true (some "North") (some "2025-01-10") [])).is400 = true
      ↔ (fieldTruthy (some "North") = false ∨ fieldTruthy (some "2025-01-10") = false
         ∨ ((([] : List RawRow).map coerceRow).filter rowKept = [])
         ∨ parseDate ((some "2025-01-10").getD "") = none) :=
  (upload_validation_400_iff
    (UploadRequest.mk true (some "North") (some "2025-01-10") []) rfl).1

end Server
